import Mathlib

/-!
Shallow embedding of the data model of `XCAN_core.h` (Generic_XCAN), together
with theorems settling the specification claims about it.  Machine words are
modelled as `Nat` with explicit `% 2^32` where the C code casts to `uint32_t`
or where a 32-bit shift may wrap.
-/

namespace XCAN

/-! ## DLC-to-byte-count tables (XCAN_core.h lines 103-105) -/

/-- Table `XCAN20_DLC_TO_VALUE` : payload byte count per 4-bit DLC code, CAN2.0. -/
def XCAN20_DLC_TO_VALUE : List Nat := [0, 1, 2, 3, 4, 5, 6, 7, 8, 8, 8, 8, 8, 8, 8, 8]

/-- Table `XCANFD_DLC_TO_VALUE` : payload byte count per 4-bit DLC code, CAN-FD. -/
def XCANFD_DLC_TO_VALUE : List Nat := [0, 1, 2, 3, 4, 5, 6, 7, 8, 12, 16, 20, 24, 32, 48, 64]

/-- Modelled from the spec: the intended semantics of the macro
`XCAN_DLCToByte(dlc, isCANFD)`.  The macro as written in `XCAN_core.h` line 105
cannot compile at any use site: it reads the tables under the names
`CANFD_DLC_TO_VALUE` / `CAN20_DLC_TO_VALUE`, which are not declared anywhere
(the tables are declared as `XCANFD_DLC_TO_VALUE` / `XCAN20_DLC_TO_VALUE`), and
its parentheses are unbalanced.  The spec (section 4.2) states the intent:
mask the code with `0xF`, then look the result up in the CAN-FD table when
`isCANFD` holds and in the CAN2.0 table otherwise. -/
def XCAN_DLCToByte (dlc : Nat) (isCANFD : Bool) : Nat :=
  if isCANFD then XCANFD_DLC_TO_VALUE.getD (dlc &&& 0xF) 0
  else XCAN20_DLC_TO_VALUE.getD (dlc &&& 0xF) 0

/-! ## Register-offset enumeration (XCAN_core.h lines 707-905), claimed entries -/

/-- Enumerator `RegXCAN_TX_DESC_MEM_ADD` of the register list. -/
def RegXCAN_TX_DESC_MEM_ADD : Nat := 0x01C

/-- Enumerator `RegXCAN_RX_FQ_START_ADD0` of the register list. -/
def RegXCAN_RX_FQ_START_ADD0 : Nat := 0x424

/-- Enumerator `RegXCAN_PREL` of the register list. -/
def RegXCAN_PREL : Nat := 0x904

/-! ## TX message status enumeration (XCAN_core.h lines 175-182) -/

/-- Enumerator `XCAN_TX_STATUS_NONE` of `eXCAN_TxStatus`. -/
def XCAN_TX_STATUS_NONE : Nat := 0b0000

/-- Enumerator `XCAN_TX_STATUS_MESSAGE_SENT_SUCCESS` of `eXCAN_TxStatus`. -/
def XCAN_TX_STATUS_MESSAGE_SENT_SUCCESS : Nat := 0b0001

/-- Enumerator `XCAN_TX_STATUS_MESSAGE_NOT_SENT` of `eXCAN_TxStatus`. -/
def XCAN_TX_STATUS_MESSAGE_NOT_SENT : Nat := 0b0010

/-- Enumerator `XCAN_TX_STATUS_MESSAGE_SKIPPED` of `eXCAN_TxStatus`. -/
def XCAN_TX_STATUS_MESSAGE_SKIPPED : Nat := 0b0011

/-- Enumerator `XCAN_TX_STATUS_MESSAGE_REJECTED` of `eXCAN_TxStatus`. -/
def XCAN_TX_STATUS_MESSAGE_REJECTED : Nat := 0b0100

/-- Enumerator `XCAN_TX_STATUS_MESSAGE_ACK_WITH_ERROR` of `eXCAN_TxStatus`. -/
def XCAN_TX_STATUS_MESSAGE_ACK_WITH_ERROR : Nat := 0b1111

/-- Constant `XCAN_PC_ENDN_ENDIANNESS_TEST_VALUE` (XCAN_core.h line 2048). -/
def XCAN_PC_ENDN_ENDIANNESS_TEST_VALUE : Nat := 0x87654321

/-- Predicate `XCAN_PC_ENDN_IS_CORRECT_ENDIANNESS` (XCAN_core.h line 2049). -/
def XCAN_PC_ENDN_IS_CORRECT_ENDIANNESS (value : Nat) : Bool :=
  value == XCAN_PC_ENDN_ENDIANNESS_TEST_VALUE

/-! ## Unlock keys for protected control registers (XCAN_core.h lines 2285-2291) -/

/-- Constant `XCAN_IC_ULK_UNLOCK_KEY1` : first unlock key for CTRL and FIMC. -/
def XCAN_IC_ULK_UNLOCK_KEY1 : Nat := 0x1234

/-- Constant `XCAN_IC_ULK_UNLOCK_KEY2` : second unlock key for CTRL and FIMC. -/
def XCAN_IC_ULK_UNLOCK_KEY2 : Nat := 0x4321

/-- Constant `XCAN_IC_TMK_TEST_UNLOCK_KEY1` : first unlock key for TEST registers. -/
def XCAN_IC_TMK_TEST_UNLOCK_KEY1 : Nat := 0x6789

/-- Constant `XCAN_IC_TMK_TEST_UNLOCK_KEY2` : second unlock key for TEST registers. -/
def XCAN_IC_TMK_TEST_UNLOCK_KEY2 : Nat := 0x9876

/-! ## TX descriptor word enumeration `eXCAN_TxDescriptor` (XCAN_core.h lines 283-296).
The C enumeration assigns consecutive values, with `TD0` aliased to `T2` and
`TX_AP` aliased to `TD1`, exactly as transcribed below. -/

/-- Enumerator `XCAN_CAN_TXDESC_TIC1`. -/
def XCAN_CAN_TXDESC_TIC1 : Nat := 0

/-- Enumerator `XCAN_CAN_TXDESC_TIC2`. -/
def XCAN_CAN_TXDESC_TIC2 : Nat := XCAN_CAN_TXDESC_TIC1 + 1

/-- Enumerator `XCAN_CAN_TXDESC_TS0`. -/
def XCAN_CAN_TXDESC_TS0 : Nat := XCAN_CAN_TXDESC_TIC2 + 1

/-- Enumerator `XCAN_CAN_TXDESC_TS1`. -/
def XCAN_CAN_TXDESC_TS1 : Nat := XCAN_CAN_TXDESC_TS0 + 1

/-- Enumerator `XCAN_CAN_TXDESC_T0`. -/
def XCAN_CAN_TXDESC_T0 : Nat := XCAN_CAN_TXDESC_TS1 + 1

/-- Enumerator `XCAN_CAN_TXDESC_T1`. -/
def XCAN_CAN_TXDESC_T1 : Nat := XCAN_CAN_TXDESC_T0 + 1

/-- Enumerator `XCAN_CAN_TXDESC_T2`. -/
def XCAN_CAN_TXDESC_T2 : Nat := XCAN_CAN_TXDESC_T1 + 1

/-- Enumerator `XCAN_CAN_TXDESC_TD0 = XCAN_CAN_TXDESC_T2`. -/
def XCAN_CAN_TXDESC_TD0 : Nat := XCAN_CAN_TXDESC_T2

/-- Enumerator `XCAN_CAN_TXDESC_TD1` (one past `TD0`). -/
def XCAN_CAN_TXDESC_TD1 : Nat := XCAN_CAN_TXDESC_TD0 + 1

/-- Enumerator `XCAN_CAN_TXDESC_TX_AP = XCAN_CAN_TXDESC_TD1`. -/
def XCAN_CAN_TXDESC_TX_AP : Nat := XCAN_CAN_TXDESC_TD1

/-- Enumerator `XCAN_CAN_TXDESC_COUNT` (one past `TX_AP`, kept last). -/
def XCAN_CAN_TXDESC_COUNT : Nat := XCAN_CAN_TXDESC_TX_AP + 1

/-! ## RX descriptor word enumeration `eXCAN_RxDescriptor` (XCAN_core.h lines 542-548) -/

/-- Enumerator `XCAN_CAN_RXDESC_RIC1`. -/
def XCAN_CAN_RXDESC_RIC1 : Nat := 0

/-- Enumerator `XCAN_CAN_RXDESC_RX_AP`. -/
def XCAN_CAN_RXDESC_RX_AP : Nat := XCAN_CAN_RXDESC_RIC1 + 1

/-- Enumerator `XCAN_CAN_RXDESC_TS0`. -/
def XCAN_CAN_RXDESC_TS0 : Nat := XCAN_CAN_RXDESC_RX_AP + 1

/-- Enumerator `XCAN_CAN_RXDESC_TS1`. -/
def XCAN_CAN_RXDESC_TS1 : Nat := XCAN_CAN_RXDESC_TS0 + 1

/-- Enumerator `XCAN_CAN_RXDESC_COUNT` (kept last). -/
def XCAN_CAN_RXDESC_COUNT : Nat := XCAN_CAN_RXDESC_TS1 + 1

/-- Byte size of one 32-bit word (`sizeof(uint32_t)`). -/
def sizeofUInt32 : Nat := 4

/-- The TX descriptor `XCAN_CAN_TxMessage` is a union of
`uint32_t Word[XCAN_CAN_TXDESC_COUNT]` with a packed struct of eight 32-bit
members (TIC1, TIC2, TS0, TS1, T0, T1, TD0/T2, TD1/TX_AP); its byte size, as
asserted by `XCAN_CONTROL_ITEM_SIZE(XCAN_CAN_TxMessage, 32)`, is the word
count times 4. -/
def XCAN_CAN_TX_MESSAGE_SIZE : Nat := XCAN_CAN_TXDESC_COUNT * sizeofUInt32

/-- The RX descriptor `XCAN_CAN_RxMessage` is a union of
`uint32_t Word[XCAN_CAN_RXDESC_COUNT]` with a packed struct of four 32-bit
members (RIC1, RX_AP, TS0, TS1); its byte size, as asserted by
`XCAN_CONTROL_ITEM_SIZE(XCAN_CAN_RxMessage, 16)`, is the word count times 4. -/
def XCAN_CAN_RX_MESSAGE_SIZE : Nat := XCAN_CAN_RXDESC_COUNT * sizeofUInt32

/-! ## TX DMA info control 1 field access macros (XCAN_core.h lines 184-203).
Each `_SET` macro is `(((uint32_t)(value) << Pos) & Mask)` and each `_GET`
macro is `(((uint32_t)(value) & Mask) >> Pos)`; the `uint32_t` cast and the
wrap of the 32-bit shift are `% 2^32`. -/

/-- Constant `XCAN_TxDMA1_STS_Pos`. -/
def XCAN_TxDMA1_STS_Pos : Nat := 0

/-- Constant `XCAN_TxDMA1_STS_Mask` : `0xFu << Pos`. -/
def XCAN_TxDMA1_STS_Mask : Nat := 0xF <<< XCAN_TxDMA1_STS_Pos

/-- Macro `XCAN_TxDMA1_STS_SET(value)`. -/
def XCAN_TxDMA1_STS_SET (value : Nat) : Nat :=
  (((value % 2 ^ 32) <<< XCAN_TxDMA1_STS_Pos) % 2 ^ 32) &&& XCAN_TxDMA1_STS_Mask

/-- Macro `XCAN_TxDMA1_STS_GET(value)`. -/
def XCAN_TxDMA1_STS_GET (value : Nat) : Nat :=
  ((value % 2 ^ 32) &&& XCAN_TxDMA1_STS_Mask) >>> XCAN_TxDMA1_STS_Pos

/-- Constant `XCAN_TxDMA1_RC_Pos`. -/
def XCAN_TxDMA1_RC_Pos : Nat := 4

/-- Constant `XCAN_TxDMA1_RC_Mask` : `0x1Fu << Pos`. -/
def XCAN_TxDMA1_RC_Mask : Nat := 0x1F <<< XCAN_TxDMA1_RC_Pos

/-- Macro `XCAN_TxDMA1_RC_SET(value)`. -/
def XCAN_TxDMA1_RC_SET (value : Nat) : Nat :=
  (((value % 2 ^ 32) <<< XCAN_TxDMA1_RC_Pos) % 2 ^ 32) &&& XCAN_TxDMA1_RC_Mask

/-- Macro `XCAN_TxDMA1_RC_GET(value)`. -/
def XCAN_TxDMA1_RC_GET (value : Nat) : Nat :=
  ((value % 2 ^ 32) &&& XCAN_TxDMA1_RC_Mask) >>> XCAN_TxDMA1_RC_Pos

/-- Constant `XCAN_TxDMA1_FQN_Pos`. -/
def XCAN_TxDMA1_FQN_Pos : Nat := 12

/-- Constant `XCAN_TxDMA1_FQN_Mask` : `0xFu << Pos`. -/
def XCAN_TxDMA1_FQN_Mask : Nat := 0xF <<< XCAN_TxDMA1_FQN_Pos

/-- Macro `XCAN_TxDMA1_FQN_SET(value)`. -/
def XCAN_TxDMA1_FQN_SET (value : Nat) : Nat :=
  (((value % 2 ^ 32) <<< XCAN_TxDMA1_FQN_Pos) % 2 ^ 32) &&& XCAN_TxDMA1_FQN_Mask

/-- Macro `XCAN_TxDMA1_FQN_GET(value)`. -/
def XCAN_TxDMA1_FQN_GET (value : Nat) : Nat :=
  ((value % 2 ^ 32) &&& XCAN_TxDMA1_FQN_Mask) >>> XCAN_TxDMA1_FQN_Pos

/-- Constant `XCAN_TxDMA1_PQSN_Pos` (11 in the source). -/
def XCAN_TxDMA1_PQSN_Pos : Nat := 11

/-- Constant `XCAN_TxDMA1_PQSN_Mask` : `0x1Fu << Pos`. -/
def XCAN_TxDMA1_PQSN_Mask : Nat := 0x1F <<< XCAN_TxDMA1_PQSN_Pos

/-- Macro `XCAN_TxDMA1_PQSN_SET(value)`. -/
def XCAN_TxDMA1_PQSN_SET (value : Nat) : Nat :=
  (((value % 2 ^ 32) <<< XCAN_TxDMA1_PQSN_Pos) % 2 ^ 32) &&& XCAN_TxDMA1_PQSN_Mask

/-- Macro `XCAN_TxDMA1_PQSN_GET(value)`. -/
def XCAN_TxDMA1_PQSN_GET (value : Nat) : Nat :=
  ((value % 2 ^ 32) &&& XCAN_TxDMA1_PQSN_Mask) >>> XCAN_TxDMA1_PQSN_Pos

/-- Constant `XCAN_TxDMA1_CRC_Pos`. -/
def XCAN_TxDMA1_CRC_Pos : Nat := 16

/-- Constant `XCAN_TxDMA1_CRC_Mask` : `0x1FFu << Pos`. -/
def XCAN_TxDMA1_CRC_Mask : Nat := 0x1FF <<< XCAN_TxDMA1_CRC_Pos

/-- Macro `XCAN_TxDMA1_CRC_SET(value)`. -/
def XCAN_TxDMA1_CRC_SET (value : Nat) : Nat :=
  (((value % 2 ^ 32) <<< XCAN_TxDMA1_CRC_Pos) % 2 ^ 32) &&& XCAN_TxDMA1_CRC_Mask

/-- Macro `XCAN_TxDMA1_CRC_GET(value)`. -/
def XCAN_TxDMA1_CRC_GET (value : Nat) : Nat :=
  ((value % 2 ^ 32) &&& XCAN_TxDMA1_CRC_Mask) >>> XCAN_TxDMA1_CRC_Pos

/-! ## RX FIFO Queue size register field macros (XCAN_core.h lines 1032-1037).
Note: the `_GET`/`_SET` macro bodies on these lines are missing their leading
opening parenthesis in the source (`((uint32_t)(value) & Mask) >> Pos)`), so a
use of them cannot compile; the definitions below use the evident intended
parenthesization, identical in shape to every other `_GET`/`_SET` macro of the
file.  The `Pos`/`Mask` constants are transcribed exactly: `MAX_DESC`'s mask is
`0x3Fu` (6 bits) although the `MAX_DESC` bit field of
`XCAN_RX_FQ_SIZE_Register` is declared 10 bits wide (bits 0-9). -/

/-- Constant `XCAN_RX_FQ_SIZE_MAX_DESC_Pos`. -/
def XCAN_RX_FQ_SIZE_MAX_DESC_Pos : Nat := 0

/-- Constant `XCAN_RX_FQ_SIZE_MAX_DESC_Mask` : `0x3Fu << Pos`. -/
def XCAN_RX_FQ_SIZE_MAX_DESC_Mask : Nat := 0x3F <<< XCAN_RX_FQ_SIZE_MAX_DESC_Pos

/-- Bit width of the `MAX_DESC` bit field as declared in
`XCAN_RX_FQ_SIZE_Register` (`uint32_t MAX_DESC : 10`). -/
def XCAN_RX_FQ_SIZE_MAX_DESC_FieldWidth : Nat := 10

/-- Macro `XCAN_RX_FQ_SIZE_MAX_DESC_SET(value)` (intended parenthesization). -/
def XCAN_RX_FQ_SIZE_MAX_DESC_SET (value : Nat) : Nat :=
  (((value % 2 ^ 32) <<< XCAN_RX_FQ_SIZE_MAX_DESC_Pos) % 2 ^ 32) &&& XCAN_RX_FQ_SIZE_MAX_DESC_Mask

/-- Macro `XCAN_RX_FQ_SIZE_MAX_DESC_GET(value)` (intended parenthesization). -/
def XCAN_RX_FQ_SIZE_MAX_DESC_GET (value : Nat) : Nat :=
  ((value % 2 ^ 32) &&& XCAN_RX_FQ_SIZE_MAX_DESC_Mask) >>> XCAN_RX_FQ_SIZE_MAX_DESC_Pos

/-- Constant `XCAN_RX_FQ_SIZE_DC_SIZE_Pos`. -/
def XCAN_RX_FQ_SIZE_DC_SIZE_Pos : Nat := 16

/-- Constant `XCAN_RX_FQ_SIZE_DC_SIZE_Mask` : `0xFFFu << Pos`. -/
def XCAN_RX_FQ_SIZE_DC_SIZE_Mask : Nat := 0xFFF <<< XCAN_RX_FQ_SIZE_DC_SIZE_Pos

/-- Macro `XCAN_RX_FQ_SIZE_DC_SIZE_SET(value)` (intended parenthesization). -/
def XCAN_RX_FQ_SIZE_DC_SIZE_SET (value : Nat) : Nat :=
  (((value % 2 ^ 32) <<< XCAN_RX_FQ_SIZE_DC_SIZE_Pos) % 2 ^ 32) &&& XCAN_RX_FQ_SIZE_DC_SIZE_Mask

/-- Macro `XCAN_RX_FQ_SIZE_DC_SIZE_GET(value)` (intended parenthesization). -/
def XCAN_RX_FQ_SIZE_DC_SIZE_GET (value : Nat) : Nat :=
  ((value % 2 ^ 32) &&& XCAN_RX_FQ_SIZE_DC_SIZE_Mask) >>> XCAN_RX_FQ_SIZE_DC_SIZE_Pos

/-! ## LOCK register field macros (XCAN_core.h lines 2287-2295) -/

/-- Constant `XCAN_IC_LOCK_ULK_Pos`. -/
def XCAN_IC_LOCK_ULK_Pos : Nat := 0

/-- Constant `XCAN_IC_LOCK_ULK_Mask` : `0xFFFFu << Pos`. -/
def XCAN_IC_LOCK_ULK_Mask : Nat := 0xFFFF <<< XCAN_IC_LOCK_ULK_Pos

/-- Macro `XCAN_IC_LOCK_ULK_SET(value)`. -/
def XCAN_IC_LOCK_ULK_SET (value : Nat) : Nat :=
  (((value % 2 ^ 32) <<< XCAN_IC_LOCK_ULK_Pos) % 2 ^ 32) &&& XCAN_IC_LOCK_ULK_Mask

/-- Constant `XCAN_IC_LOCK_TMK_Pos`. -/
def XCAN_IC_LOCK_TMK_Pos : Nat := 16

/-- Constant `XCAN_IC_LOCK_TMK_Mask` : `0xFFFFu << Pos`. -/
def XCAN_IC_LOCK_TMK_Mask : Nat := 0xFFFF <<< XCAN_IC_LOCK_TMK_Pos

/-- Macro `XCAN_IC_LOCK_TMK_SET(value)`. -/
def XCAN_IC_LOCK_TMK_SET (value : Nat) : Nat :=
  (((value % 2 ^ 32) <<< XCAN_IC_LOCK_TMK_Pos) % 2 ^ 32) &&& XCAN_IC_LOCK_TMK_Mask

/-! ## Header word 0 format bits and discrimination macros (XCAN_core.h lines 628-636) -/

/-- Constant `XCAN_T0_XTD` : `0x1u << 29`, the Extended Identifier bit. -/
def XCAN_T0_XTD : Nat := 0x1 <<< 29

/-- Constant `XCAN_T0_XLF` : `0x1u << 30`, the XL Format bit. -/
def XCAN_T0_XLF : Nat := 0x1 <<< 30

/-- Constant `XCAN_T0_FDF` : `0x1u << 31`, the FD Format bit. -/
def XCAN_T0_FDF : Nat := 0x1 <<< 31

/-- Constant `XCAN_T0_CAN20_SET` : value to set a classical CAN2.0 frame. -/
def XCAN_T0_CAN20_SET : Nat := 0

/-- Constant `XCAN_T0_CANFD_SET` : value to set a CAN-FD frame. -/
def XCAN_T0_CANFD_SET : Nat := XCAN_T0_FDF

/-- Constant `XCAN_T0_CANXL_SET` : value to set a CAN-XL frame (`XLF | FDF`). -/
def XCAN_T0_CANXL_SET : Nat := XCAN_T0_XLF ||| XCAN_T0_FDF

/-- Macro `XCAN_T0_IS_CAN20(value)` : `((value & (XLF | FDF)) == 0)`. -/
def XCAN_T0_IS_CAN20 (value : Nat) : Bool :=
  (value &&& (XCAN_T0_XLF ||| XCAN_T0_FDF)) == 0

/-- Macro `XCAN_T0_IS_CANFD(value)` : `((value & (XLF | FDF)) == FDF)`. -/
def XCAN_T0_IS_CANFD (value : Nat) : Bool :=
  (value &&& (XCAN_T0_XLF ||| XCAN_T0_FDF)) == XCAN_T0_FDF

/-- Macro `XCAN_T0_IS_CANXL(value)` : `((value & (XLF | FDF | XTD)) == (XLF | FDF))`. -/
def XCAN_T0_IS_CANXL (value : Nat) : Bool :=
  (value &&& (XCAN_T0_XLF ||| XCAN_T0_FDF ||| XCAN_T0_XTD)) == (XCAN_T0_XLF ||| XCAN_T0_FDF)

/-! ## The three overlay views of TX message header word 0
(`XCAN_TxMessageHeader0`, XCAN_core.h lines 338-372).  Each bit-field getter
extracts the field's bits from the shared 32-bit word; each pack function
builds the word by writing every field of one view, truncating each value to
the field's declared width exactly as a C bit-field assignment does. -/

/-- Field `CAN20.ExtID` (bits 0-17) of `XCAN_TxMessageHeader0`. -/
def XCAN_T0_CAN20_ExtID (w : Nat) : Nat := (w >>> 0) &&& 0x3FFFF

/-- Field `CAN20.BaseID` (bits 18-28) of `XCAN_TxMessageHeader0`. -/
def XCAN_T0_CAN20_BaseID (w : Nat) : Nat := (w >>> 18) &&& 0x7FF

/-- Field `CAN20.XTD` (bit 29) of `XCAN_TxMessageHeader0`. -/
def XCAN_T0_CAN20_XTD (w : Nat) : Nat := (w >>> 29) &&& 0x1

/-- Field `CAN20.XLF` (bit 30) of `XCAN_TxMessageHeader0`. -/
def XCAN_T0_CAN20_XLF (w : Nat) : Nat := (w >>> 30) &&& 0x1

/-- Field `CAN20.FDF` (bit 31) of `XCAN_TxMessageHeader0`. -/
def XCAN_T0_CAN20_FDF (w : Nat) : Nat := (w >>> 31) &&& 0x1

/-- Field `CANFD.ExtID` (bits 0-17) of `XCAN_TxMessageHeader0`. -/
def XCAN_T0_CANFD_ExtID (w : Nat) : Nat := (w >>> 0) &&& 0x3FFFF

/-- Field `CANFD.BaseID` (bits 18-28) of `XCAN_TxMessageHeader0`. -/
def XCAN_T0_CANFD_BaseID (w : Nat) : Nat := (w >>> 18) &&& 0x7FF

/-- Field `CANFD.XTD` (bit 29) of `XCAN_TxMessageHeader0`. -/
def XCAN_T0_CANFD_XTD (w : Nat) : Nat := (w >>> 29) &&& 0x1

/-- Field `CANFD.XLF` (bit 30) of `XCAN_TxMessageHeader0`. -/
def XCAN_T0_CANFD_XLF (w : Nat) : Nat := (w >>> 30) &&& 0x1

/-- Field `CANFD.FDF` (bit 31) of `XCAN_TxMessageHeader0`. -/
def XCAN_T0_CANFD_FDF (w : Nat) : Nat := (w >>> 31) &&& 0x1

/-- Field `CANXL.SDT` (bits 0-7) of `XCAN_TxMessageHeader0`. -/
def XCAN_T0_CANXL_SDT (w : Nat) : Nat := (w >>> 0) &&& 0xFF

/-- Field `CANXL.VCID` (bits 8-15) of `XCAN_TxMessageHeader0`. -/
def XCAN_T0_CANXL_VCID (w : Nat) : Nat := (w >>> 8) &&& 0xFF

/-- Field `CANXL.SEC` (bit 16) of `XCAN_TxMessageHeader0`. -/
def XCAN_T0_CANXL_SEC (w : Nat) : Nat := (w >>> 16) &&& 0x1

/-- Field `CANXL.RRS` (bit 17) of `XCAN_TxMessageHeader0`. -/
def XCAN_T0_CANXL_RRS (w : Nat) : Nat := (w >>> 17) &&& 0x1

/-- Field `CANXL.PrioID` (bits 18-28) of `XCAN_TxMessageHeader0`. -/
def XCAN_T0_CANXL_PrioID (w : Nat) : Nat := (w >>> 18) &&& 0x7FF

/-- Field `CANXL.XTD` (bit 29) of `XCAN_TxMessageHeader0`. -/
def XCAN_T0_CANXL_XTD (w : Nat) : Nat := (w >>> 29) &&& 0x1

/-- Field `CANXL.XLF` (bit 30) of `XCAN_TxMessageHeader0`. -/
def XCAN_T0_CANXL_XLF (w : Nat) : Nat := (w >>> 30) &&& 0x1

/-- Field `CANXL.FDF` (bit 31) of `XCAN_TxMessageHeader0`. -/
def XCAN_T0_CANXL_FDF (w : Nat) : Nat := (w >>> 31) &&& 0x1

/-- Write the whole header word through the `CAN20` view of
`XCAN_TxMessageHeader0` (fields at bits 0-17, 18-28, 29, 30, 31). -/
def XCAN_T0_CAN20_pack (extID baseID xtd xlf fdf : Nat) : Nat :=
  extID % 2 ^ 18 + baseID % 2 ^ 11 * 2 ^ 18 + xtd % 2 * 2 ^ 29 + xlf % 2 * 2 ^ 30 +
    fdf % 2 * 2 ^ 31

/-- Write the whole header word through the `CANXL` view of
`XCAN_TxMessageHeader0` (fields at bits 0-7, 8-15, 16, 17, 18-28, 29, 30, 31). -/
def XCAN_T0_CANXL_pack (sdt vcid sec rrs prioID xtd xlf fdf : Nat) : Nat :=
  sdt % 2 ^ 8 + vcid % 2 ^ 8 * 2 ^ 8 + sec % 2 * 2 ^ 16 + rrs % 2 * 2 ^ 17 +
    prioID % 2 ^ 11 * 2 ^ 18 + xtd % 2 * 2 ^ 29 + xlf % 2 * 2 ^ 30 + fdf % 2 * 2 ^ 31

/-! ## 8-bit packed-BCD decoding (XCAN_core.h line 67) -/

/-- Macro `XCAN_DCB8_TO_DECIMAL(dcb)` : `(uint8_t)(dcb) - (6u * ((uint8_t)(dcb) >> 4u))`.
The cast to `uint8_t` is `% 256`; the unsigned subtraction never wraps because
`6 * (x >> 4) ≤ x` for every `x`, so plain `Nat` subtraction is faithful. -/
def XCAN_DCB8_TO_DECIMAL (dcb : Nat) : Nat :=
  (dcb % 256) - 6 * ((dcb % 256) >>> 4)

end XCAN

open XCAN

/-- C1: the DLC-to-byte conversion, in its intended semantics (the macro
`XCAN_DLCToByte` itself is broken in the source: it names tables that do not
exist and its parentheses are unbalanced), masks the code with `0xF` and looks
it up in the CAN-FD table when `isCANFD` is true, the CAN2.0 table otherwise;
in particular the five quoted values hold and the masked index is always below
both tables' length 16. -/
theorem C1_dlcToByte_intended_semantics :
    XCAN_DLCToByte 9 false = 8 ∧
    XCAN_DLCToByte 9 true = 12 ∧
    XCAN_DLCToByte 15 true = 64 ∧
    XCAN_DLCToByte 0 false = 0 ∧
    XCAN_DLCToByte 0xFF true = XCAN_DLCToByte 0xF true ∧
    XCAN_DLCToByte 0xF true = 64 ∧
    (∀ code : Nat,
      (code &&& 0xF) < XCAN20_DLC_TO_VALUE.length ∧
      (code &&& 0xF) < XCANFD_DLC_TO_VALUE.length) := by
  refine ⟨by decide, by decide, by decide, by decide, by decide, by decide, fun code => ?_⟩
  have h : code &&& 0xF ≤ 0xF := Nat.and_le_right
  exact ⟨by simp [XCAN20_DLC_TO_VALUE]; omega, by simp [XCANFD_DLC_TO_VALUE]; omega⟩

/-- C4: in the register-offset enumeration, `RX_FQ_START_ADD0` is at offset
`0x424`, `TX_DESC_MEM_ADD` at `0x01C` and `PREL` at `0x904`. -/
theorem C4_register_offsets :
    RegXCAN_RX_FQ_START_ADD0 = 0x424 ∧
    RegXCAN_TX_DESC_MEM_ADD = 0x01C ∧
    RegXCAN_PREL = 0x904 := by
  refine ⟨rfl, rfl, rfl⟩

/-- C7: the TX status enumeration assigns `0b1111` to the
"message acknowledge data with parity error" status, and the endianness test
constant equals `0x87654321` (and the endianness check accepts exactly it). -/
theorem C7_status_and_endianness_constants :
    XCAN_TX_STATUS_MESSAGE_ACK_WITH_ERROR = 0b1111 ∧
    XCAN_PC_ENDN_ENDIANNESS_TEST_VALUE = 0x87654321 ∧
    XCAN_PC_ENDN_IS_CORRECT_ENDIANNESS 0x87654321 = true := by
  refine ⟨rfl, rfl, by decide⟩

/-- C8: the unlock-key constants are `0x1234`/`0x4321` for the CTRL/FIMC
registers and `0x6789`/`0x9876` for the TEST registers. -/
theorem C8_unlock_key_constants :
    XCAN_IC_ULK_UNLOCK_KEY1 = 0x1234 ∧
    XCAN_IC_ULK_UNLOCK_KEY2 = 0x4321 ∧
    XCAN_IC_TMK_TEST_UNLOCK_KEY1 = 0x6789 ∧
    XCAN_IC_TMK_TEST_UNLOCK_KEY2 = 0x9876 := by
  refine ⟨rfl, rfl, rfl, rfl⟩

/-- C5: the TX message descriptor is exactly 32 bytes (8 32-bit words) and the
RX message descriptor is exactly 16 bytes (4 32-bit words). -/
theorem C5_descriptor_sizes :
    XCAN_CAN_TXDESC_COUNT = 8 ∧ XCAN_CAN_TX_MESSAGE_SIZE = 32 ∧
    XCAN_CAN_RXDESC_COUNT = 4 ∧ XCAN_CAN_RX_MESSAGE_SIZE = 16 := by
  refine ⟨rfl, rfl, rfl, rfl⟩

/-- C10: for every 8-bit packed-BCD value whose two nibbles are each at most 9,
`XCAN_DCB8_TO_DECIMAL` returns ten times the high nibble plus the low nibble. -/
theorem C10_dcb8_to_decimal (dcb : Nat) (hlt : dcb < 256)
    (hhi : dcb >>> 4 ≤ 9) (hlo : dcb % 16 ≤ 9) :
    XCAN_DCB8_TO_DECIMAL dcb = 10 * (dcb >>> 4) + dcb % 16 := by
  have h4 : dcb >>> 4 = dcb / 16 := Nat.shiftRight_eq_div_pow dcb 4
  unfold XCAN_DCB8_TO_DECIMAL
  rw [Nat.mod_eq_of_lt hlt, h4] at *
  omega

/-- C10 witness: at the concrete packed-BCD input `0x42` the decoder yields 42. -/
theorem C10_dcb8_to_decimal_witness :
    XCAN_DCB8_TO_DECIMAL 0x42 = 10 * (0x42 >>> 4) + 0x42 % 16 :=
  C10_dcb8_to_decimal 0x42 (by decide) (by decide) (by decide)

/-! ### Helper lemmas about the shift-and-mask pattern shared by the field macros -/

theorem xcan_mod_pow_two_and (x m n : Nat) (hm : m < 2 ^ n) :
    (x % 2 ^ n) &&& m = x &&& m := by
  rw [← Nat.and_pow_two_sub_one_eq_mod x n, Nat.and_assoc]
  congr 1
  rw [Nat.and_comm, Nat.and_pow_two_sub_one_eq_mod, Nat.mod_eq_of_lt hm]

theorem xcan_set_macro_eq (v p m : Nat) (hm : m < 2 ^ 32) :
    (((v % 2 ^ 32) <<< p) % 2 ^ 32) &&& m = (v <<< p) &&& m := by
  rw [xcan_mod_pow_two_and _ m 32 hm]
  have h2 : (v % 2 ^ 32) <<< p = (v <<< p) % 2 ^ (32 + p) := by
    rw [Nat.shiftLeft_eq, Nat.shiftLeft_eq, Nat.pow_add]
    exact (Nat.mul_mod_mul_right (2 ^ p) v (2 ^ 32)).symm
  rw [h2, xcan_mod_pow_two_and _ m (32 + p)
    (lt_of_lt_of_le hm (Nat.pow_le_pow_right (by omega) (by omega)))]

theorem xcan_shiftLeft_and_shiftLeft (a b p : Nat) :
    (a <<< p) &&& (b <<< p) = (a &&& b) <<< p := by
  apply Nat.eq_of_testBit_eq
  intro i
  simp only [Nat.testBit_and, Nat.testBit_shiftLeft]
  by_cases h : i ≥ p <;> simp [h]

theorem xcan_set_macro_trunc (v p w : Nat) :
    (v <<< p) &&& ((2 ^ w - 1) <<< p) = ((v % 2 ^ w) <<< p) &&& ((2 ^ w - 1) <<< p) := by
  rw [xcan_shiftLeft_and_shiftLeft, xcan_shiftLeft_and_shiftLeft,
    Nat.and_pow_two_sub_one_eq_mod, Nat.and_pow_two_sub_one_eq_mod,
    Nat.mod_mod_of_dvd v dvd_rfl]

theorem xcan_get_of_set (v p w : Nat) (hv : v < 2 ^ w) :
    ((v <<< p) &&& ((2 ^ w - 1) <<< p)) >>> p = v := by
  rw [xcan_shiftLeft_and_shiftLeft, Nat.and_pow_two_sub_one_eq_mod, Nat.mod_eq_of_lt hv,
    Nat.shiftLeft_shiftRight]

theorem xcan_setMacro_props (p w v : Nat) (hm : (2 ^ w - 1) <<< p < 2 ^ 32) :
    (((v % 2 ^ 32) <<< p) % 2 ^ 32) &&& ((2 ^ w - 1) <<< p)
      = (v <<< p) &&& ((2 ^ w - 1) <<< p) ∧
    ((((v % 2 ^ 32) <<< p) % 2 ^ 32) &&& ((2 ^ w - 1) <<< p)) &&& ((2 ^ w - 1) <<< p)
      = (((v % 2 ^ 32) <<< p) % 2 ^ 32) &&& ((2 ^ w - 1) <<< p) ∧
    (((v % 2 ^ 32) <<< p) % 2 ^ 32) &&& ((2 ^ w - 1) <<< p)
      = (((v % 2 ^ w % 2 ^ 32) <<< p) % 2 ^ 32) &&& ((2 ^ w - 1) <<< p) := by
  refine ⟨xcan_set_macro_eq v p _ hm, by rw [Nat.and_assoc, Nat.and_self], ?_⟩
  rw [xcan_set_macro_eq v p _ hm, xcan_set_macro_eq (v % 2 ^ w) p _ hm,
    ← xcan_set_macro_trunc]

theorem xcan_getMacro_setMacro (p w v : Nat) (hm : (2 ^ w - 1) <<< p < 2 ^ 32)
    (hv : v < 2 ^ w) :
    ((((((v % 2 ^ 32) <<< p) % 2 ^ 32) &&& ((2 ^ w - 1) <<< p)) % 2 ^ 32)
      &&& ((2 ^ w - 1) <<< p)) >>> p = v := by
  rw [xcan_set_macro_eq v p _ hm]
  have hlt : (v <<< p) &&& ((2 ^ w - 1) <<< p) < 2 ^ 32 :=
    lt_of_le_of_lt Nat.and_le_right hm
  rw [Nat.mod_eq_of_lt hlt, Nat.and_assoc, Nat.and_self, xcan_get_of_set v p w hv]

theorem xcan_and_single_bit (v i : Nat) :
    v &&& (0x1 <<< i) = (v.testBit i).toNat * 2 ^ i := by
  have h : (0x1 : Nat) <<< i = 2 ^ i := by rw [Nat.shiftLeft_eq, Nat.one_mul]
  rw [h, Nat.and_two_pow]

theorem xcan_and_format_bits (v : Nat) :
    v &&& (XCAN_T0_XLF ||| XCAN_T0_FDF)
      = (v.testBit 30).toNat * 2 ^ 30 + (v.testBit 31).toNat * 2 ^ 31 ∧
    v &&& (XCAN_T0_XLF ||| XCAN_T0_FDF ||| XCAN_T0_XTD)
      = (v.testBit 30).toNat * 2 ^ 30 + (v.testBit 31).toNat * 2 ^ 31 +
          (v.testBit 29).toNat * 2 ^ 29 := by
  have hA : v &&& (XCAN_T0_XLF ||| XCAN_T0_FDF)
      = (v.testBit 30).toNat * 2 ^ 30 + (v.testBit 31).toNat * 2 ^ 31 := by
    rw [XCAN_T0_XLF, XCAN_T0_FDF, Nat.and_or_distrib_left, xcan_and_single_bit,
      xcan_and_single_bit]
    cases hb : v.testBit 30 <;> cases hc : v.testBit 31 <;> simp
  refine ⟨hA, ?_⟩
  rw [Nat.and_or_distrib_left, hA, XCAN_T0_XTD, xcan_and_single_bit]
  cases hb : v.testBit 30 <;> cases hc : v.testBit 31 <;> cases hd : v.testBit 29 <;>
    simp [hb, hc]

/-- C2: the frame-format discrimination macros on a raw header word: a word
with FDF=1, XLF=0, XTD=0 is recognised as CAN-FD and as neither CAN2.0 nor
CAN-XL; a word with FDF=1, XLF=1 is recognised as CAN-XL exactly when its XTD
bit is 0 (the macro `XCAN_T0_IS_CANXL` compares `value & (XLF|FDF|XTD)` against
`XLF|FDF`, so XTD=1 makes it false — amending the claim, which asserted
CAN-XL recognition for XTD=1). -/
theorem C2_format_discrimination (v : Nat) :
    (v.testBit 31 = true → v.testBit 30 = false → v.testBit 29 = false →
      XCAN_T0_IS_CANFD v = true ∧ XCAN_T0_IS_CAN20 v = false ∧
        XCAN_T0_IS_CANXL v = false) ∧
    (v.testBit 31 = true → v.testBit 30 = true → v.testBit 29 = false →
      XCAN_T0_IS_CANXL v = true) ∧
    (v.testBit 31 = true → v.testBit 30 = true → v.testBit 29 = true →
      XCAN_T0_IS_CANXL v = false) := by
  obtain ⟨hA, hB⟩ := xcan_and_format_bits v
  refine ⟨fun h31 h30 h29 => ⟨?_, ?_, ?_⟩, fun h31 h30 h29 => ?_, fun h31 h30 h29 => ?_⟩
  · simp only [XCAN_T0_IS_CANFD]
    rw [hA]
    simp [h31, h30, XCAN_T0_FDF]
  · simp only [XCAN_T0_IS_CAN20]
    rw [hA]
    simp [h31, h30]
  · simp only [XCAN_T0_IS_CANXL]
    rw [hB]
    simp [h31, h30, h29, XCAN_T0_XLF, XCAN_T0_FDF]
  · simp only [XCAN_T0_IS_CANXL]
    rw [hB]
    simp [h31, h30, h29, XCAN_T0_XLF, XCAN_T0_FDF]
  · simp only [XCAN_T0_IS_CANXL]
    rw [hB]
    simp [h31, h30, h29, XCAN_T0_XLF, XCAN_T0_FDF]

/-- C2 witness: concrete header words exercising every hypothesis of the
discrimination theorem: `0x80000000` (FDF only) is CAN-FD and not CAN2.0 nor
CAN-XL; `0xC0000000` (FDF and XLF, XTD clear) is CAN-XL; `0xE0000000` (all
three bits) is not CAN-XL. -/
theorem C2_format_discrimination_witness :
    (XCAN_T0_IS_CANFD 0x80000000 = true ∧ XCAN_T0_IS_CAN20 0x80000000 = false ∧
      XCAN_T0_IS_CANXL 0x80000000 = false) ∧
    XCAN_T0_IS_CANXL 0xC0000000 = true ∧
    XCAN_T0_IS_CANXL 0xE0000000 = false :=
  ⟨(C2_format_discrimination 0x80000000).1 (by decide) (by decide) (by decide),
   (C2_format_discrimination 0xC0000000).2.1 (by decide) (by decide) (by decide),
   (C2_format_discrimination 0xE0000000).2.2 (by decide) (by decide) (by decide)⟩

/-- C2 counterexample: the claim as stated is false on the code: the word
`0xE0000000` has FDF=1, XLF=1, XTD=1, yet `XCAN_T0_IS_CANXL` rejects it,
because the macro requires the XTD bit (bit 29) to be zero. -/
theorem C2_claim_counterexample :
    Nat.testBit 0xE0000000 31 = true ∧ Nat.testBit 0xE0000000 30 = true ∧
    Nat.testBit 0xE0000000 29 = true ∧ XCAN_T0_IS_CANXL 0xE0000000 = false := by
  refine ⟨by decide, by decide, by decide, by decide⟩

/-- C6: every embedded field `_SET` macro equals `(value << Pos) & Mask` (for
every input, with the `uint32_t` cast made explicit in the macro definitions),
leaves all bits outside the field's mask zero, and silently truncates an
oversized value to the field's mask width instead of rejecting it. -/
theorem C6_set_macros_shift_and_mask :
    (∀ v : Nat,
      XCAN_TxDMA1_STS_SET v = (v <<< XCAN_TxDMA1_STS_Pos) &&& XCAN_TxDMA1_STS_Mask ∧
      XCAN_TxDMA1_STS_SET v &&& XCAN_TxDMA1_STS_Mask = XCAN_TxDMA1_STS_SET v ∧
      XCAN_TxDMA1_STS_SET v = XCAN_TxDMA1_STS_SET (v % 2 ^ 4)) ∧
    (∀ v : Nat,
      XCAN_TxDMA1_RC_SET v = (v <<< XCAN_TxDMA1_RC_Pos) &&& XCAN_TxDMA1_RC_Mask ∧
      XCAN_TxDMA1_RC_SET v &&& XCAN_TxDMA1_RC_Mask = XCAN_TxDMA1_RC_SET v ∧
      XCAN_TxDMA1_RC_SET v = XCAN_TxDMA1_RC_SET (v % 2 ^ 5)) ∧
    (∀ v : Nat,
      XCAN_TxDMA1_FQN_SET v = (v <<< XCAN_TxDMA1_FQN_Pos) &&& XCAN_TxDMA1_FQN_Mask ∧
      XCAN_TxDMA1_FQN_SET v &&& XCAN_TxDMA1_FQN_Mask = XCAN_TxDMA1_FQN_SET v ∧
      XCAN_TxDMA1_FQN_SET v = XCAN_TxDMA1_FQN_SET (v % 2 ^ 4)) ∧
    (∀ v : Nat,
      XCAN_TxDMA1_PQSN_SET v = (v <<< XCAN_TxDMA1_PQSN_Pos) &&& XCAN_TxDMA1_PQSN_Mask ∧
      XCAN_TxDMA1_PQSN_SET v &&& XCAN_TxDMA1_PQSN_Mask = XCAN_TxDMA1_PQSN_SET v ∧
      XCAN_TxDMA1_PQSN_SET v = XCAN_TxDMA1_PQSN_SET (v % 2 ^ 5)) ∧
    (∀ v : Nat,
      XCAN_TxDMA1_CRC_SET v = (v <<< XCAN_TxDMA1_CRC_Pos) &&& XCAN_TxDMA1_CRC_Mask ∧
      XCAN_TxDMA1_CRC_SET v &&& XCAN_TxDMA1_CRC_Mask = XCAN_TxDMA1_CRC_SET v ∧
      XCAN_TxDMA1_CRC_SET v = XCAN_TxDMA1_CRC_SET (v % 2 ^ 9)) ∧
    (∀ v : Nat,
      XCAN_RX_FQ_SIZE_MAX_DESC_SET v
        = (v <<< XCAN_RX_FQ_SIZE_MAX_DESC_Pos) &&& XCAN_RX_FQ_SIZE_MAX_DESC_Mask ∧
      XCAN_RX_FQ_SIZE_MAX_DESC_SET v &&& XCAN_RX_FQ_SIZE_MAX_DESC_Mask
        = XCAN_RX_FQ_SIZE_MAX_DESC_SET v ∧
      XCAN_RX_FQ_SIZE_MAX_DESC_SET v = XCAN_RX_FQ_SIZE_MAX_DESC_SET (v % 2 ^ 6)) ∧
    (∀ v : Nat,
      XCAN_RX_FQ_SIZE_DC_SIZE_SET v
        = (v <<< XCAN_RX_FQ_SIZE_DC_SIZE_Pos) &&& XCAN_RX_FQ_SIZE_DC_SIZE_Mask ∧
      XCAN_RX_FQ_SIZE_DC_SIZE_SET v &&& XCAN_RX_FQ_SIZE_DC_SIZE_Mask
        = XCAN_RX_FQ_SIZE_DC_SIZE_SET v ∧
      XCAN_RX_FQ_SIZE_DC_SIZE_SET v = XCAN_RX_FQ_SIZE_DC_SIZE_SET (v % 2 ^ 12)) ∧
    (∀ v : Nat,
      XCAN_IC_LOCK_ULK_SET v = (v <<< XCAN_IC_LOCK_ULK_Pos) &&& XCAN_IC_LOCK_ULK_Mask ∧
      XCAN_IC_LOCK_ULK_SET v &&& XCAN_IC_LOCK_ULK_Mask = XCAN_IC_LOCK_ULK_SET v ∧
      XCAN_IC_LOCK_ULK_SET v = XCAN_IC_LOCK_ULK_SET (v % 2 ^ 16)) ∧
    (∀ v : Nat,
      XCAN_IC_LOCK_TMK_SET v = (v <<< XCAN_IC_LOCK_TMK_Pos) &&& XCAN_IC_LOCK_TMK_Mask ∧
      XCAN_IC_LOCK_TMK_SET v &&& XCAN_IC_LOCK_TMK_Mask = XCAN_IC_LOCK_TMK_SET v ∧
      XCAN_IC_LOCK_TMK_SET v = XCAN_IC_LOCK_TMK_SET (v % 2 ^ 16)) := by
  refine ⟨fun v => ?_, fun v => ?_, fun v => ?_, fun v => ?_, fun v => ?_, fun v => ?_,
    fun v => ?_, fun v => ?_, fun v => ?_⟩
  · have hmask : XCAN_TxDMA1_STS_Mask = (2 ^ 4 - 1) <<< XCAN_TxDMA1_STS_Pos := by decide
    simp only [XCAN_TxDMA1_STS_SET, hmask]
    exact xcan_setMacro_props XCAN_TxDMA1_STS_Pos 4 v (by decide)
  · have hmask : XCAN_TxDMA1_RC_Mask = (2 ^ 5 - 1) <<< XCAN_TxDMA1_RC_Pos := by decide
    simp only [XCAN_TxDMA1_RC_SET, hmask]
    exact xcan_setMacro_props XCAN_TxDMA1_RC_Pos 5 v (by decide)
  · have hmask : XCAN_TxDMA1_FQN_Mask = (2 ^ 4 - 1) <<< XCAN_TxDMA1_FQN_Pos := by decide
    simp only [XCAN_TxDMA1_FQN_SET, hmask]
    exact xcan_setMacro_props XCAN_TxDMA1_FQN_Pos 4 v (by decide)
  · have hmask : XCAN_TxDMA1_PQSN_Mask = (2 ^ 5 - 1) <<< XCAN_TxDMA1_PQSN_Pos := by decide
    simp only [XCAN_TxDMA1_PQSN_SET, hmask]
    exact xcan_setMacro_props XCAN_TxDMA1_PQSN_Pos 5 v (by decide)
  · have hmask : XCAN_TxDMA1_CRC_Mask = (2 ^ 9 - 1) <<< XCAN_TxDMA1_CRC_Pos := by decide
    simp only [XCAN_TxDMA1_CRC_SET, hmask]
    exact xcan_setMacro_props XCAN_TxDMA1_CRC_Pos 9 v (by decide)
  · have hmask : XCAN_RX_FQ_SIZE_MAX_DESC_Mask
        = (2 ^ 6 - 1) <<< XCAN_RX_FQ_SIZE_MAX_DESC_Pos := by decide
    simp only [XCAN_RX_FQ_SIZE_MAX_DESC_SET, hmask]
    exact xcan_setMacro_props XCAN_RX_FQ_SIZE_MAX_DESC_Pos 6 v (by decide)
  · have hmask : XCAN_RX_FQ_SIZE_DC_SIZE_Mask
        = (2 ^ 12 - 1) <<< XCAN_RX_FQ_SIZE_DC_SIZE_Pos := by decide
    simp only [XCAN_RX_FQ_SIZE_DC_SIZE_SET, hmask]
    exact xcan_setMacro_props XCAN_RX_FQ_SIZE_DC_SIZE_Pos 12 v (by decide)
  · have hmask : XCAN_IC_LOCK_ULK_Mask = (2 ^ 16 - 1) <<< XCAN_IC_LOCK_ULK_Pos := by decide
    simp only [XCAN_IC_LOCK_ULK_SET, hmask]
    exact xcan_setMacro_props XCAN_IC_LOCK_ULK_Pos 16 v (by decide)
  · have hmask : XCAN_IC_LOCK_TMK_Mask = (2 ^ 16 - 1) <<< XCAN_IC_LOCK_TMK_Pos := by decide
    simp only [XCAN_IC_LOCK_TMK_SET, hmask]
    exact xcan_setMacro_props XCAN_IC_LOCK_TMK_Pos 16 v (by decide)

/-- C3: the GET-after-SET round-trip.  It holds for every embedded
`_SET`/`_GET` pair up to the width of the macro's mask (proved below for the
STS, RC, FQN, PQSN, CRC and MAX_DESC pairs), but the claim fails on the code
for `XCAN_RX_FQ_SIZE_MAX_DESC`: the `MAX_DESC` bit field is declared 10 bits
wide in `XCAN_RX_FQ_SIZE_Register`, yet the macro's mask is only `0x3F`
(6 bits), so the value 64 - which fits the declared field - does not round-trip:
`GET(SET(64)) = 0`.  (In addition the four `XCAN_RX_FQ_SIZE_*_GET/_SET` macro
bodies are missing an opening parenthesis in the source, so as written they
cannot compile at any use site.) -/
theorem C3_get_set_roundtrip :
    64 < 2 ^ XCAN_RX_FQ_SIZE_MAX_DESC_FieldWidth ∧
    XCAN_RX_FQ_SIZE_MAX_DESC_GET (XCAN_RX_FQ_SIZE_MAX_DESC_SET 64) = 0 ∧
    XCAN_RX_FQ_SIZE_MAX_DESC_GET (XCAN_RX_FQ_SIZE_MAX_DESC_SET 63) = 63 ∧
    (∀ v : Nat, XCAN_TxDMA1_STS_GET (XCAN_TxDMA1_STS_SET (v % 2 ^ 4)) = v % 2 ^ 4) ∧
    (∀ v : Nat, XCAN_TxDMA1_RC_GET (XCAN_TxDMA1_RC_SET (v % 2 ^ 5)) = v % 2 ^ 5) ∧
    (∀ v : Nat, XCAN_TxDMA1_FQN_GET (XCAN_TxDMA1_FQN_SET (v % 2 ^ 4)) = v % 2 ^ 4) ∧
    (∀ v : Nat, XCAN_TxDMA1_PQSN_GET (XCAN_TxDMA1_PQSN_SET (v % 2 ^ 5)) = v % 2 ^ 5) ∧
    (∀ v : Nat, XCAN_TxDMA1_CRC_GET (XCAN_TxDMA1_CRC_SET (v % 2 ^ 9)) = v % 2 ^ 9) ∧
    (∀ v : Nat,
      XCAN_RX_FQ_SIZE_MAX_DESC_GET (XCAN_RX_FQ_SIZE_MAX_DESC_SET (v % 2 ^ 6)) = v % 2 ^ 6) := by
  refine ⟨by decide, by decide, by decide, fun v => ?_, fun v => ?_, fun v => ?_,
    fun v => ?_, fun v => ?_, fun v => ?_⟩
  · have hmask : XCAN_TxDMA1_STS_Mask = (2 ^ 4 - 1) <<< XCAN_TxDMA1_STS_Pos := by decide
    simp only [XCAN_TxDMA1_STS_GET, XCAN_TxDMA1_STS_SET, hmask]
    exact xcan_getMacro_setMacro XCAN_TxDMA1_STS_Pos 4 (v % 2 ^ 4) (by decide)
      (Nat.mod_lt v (by decide))
  · have hmask : XCAN_TxDMA1_RC_Mask = (2 ^ 5 - 1) <<< XCAN_TxDMA1_RC_Pos := by decide
    simp only [XCAN_TxDMA1_RC_GET, XCAN_TxDMA1_RC_SET, hmask]
    exact xcan_getMacro_setMacro XCAN_TxDMA1_RC_Pos 5 (v % 2 ^ 5) (by decide)
      (Nat.mod_lt v (by decide))
  · have hmask : XCAN_TxDMA1_FQN_Mask = (2 ^ 4 - 1) <<< XCAN_TxDMA1_FQN_Pos := by decide
    simp only [XCAN_TxDMA1_FQN_GET, XCAN_TxDMA1_FQN_SET, hmask]
    exact xcan_getMacro_setMacro XCAN_TxDMA1_FQN_Pos 4 (v % 2 ^ 4) (by decide)
      (Nat.mod_lt v (by decide))
  · have hmask : XCAN_TxDMA1_PQSN_Mask = (2 ^ 5 - 1) <<< XCAN_TxDMA1_PQSN_Pos := by decide
    simp only [XCAN_TxDMA1_PQSN_GET, XCAN_TxDMA1_PQSN_SET, hmask]
    exact xcan_getMacro_setMacro XCAN_TxDMA1_PQSN_Pos 5 (v % 2 ^ 5) (by decide)
      (Nat.mod_lt v (by decide))
  · have hmask : XCAN_TxDMA1_CRC_Mask = (2 ^ 9 - 1) <<< XCAN_TxDMA1_CRC_Pos := by decide
    simp only [XCAN_TxDMA1_CRC_GET, XCAN_TxDMA1_CRC_SET, hmask]
    exact xcan_getMacro_setMacro XCAN_TxDMA1_CRC_Pos 9 (v % 2 ^ 9) (by decide)
      (Nat.mod_lt v (by decide))
  · have hmask : XCAN_RX_FQ_SIZE_MAX_DESC_Mask
        = (2 ^ 6 - 1) <<< XCAN_RX_FQ_SIZE_MAX_DESC_Pos := by decide
    simp only [XCAN_RX_FQ_SIZE_MAX_DESC_GET, XCAN_RX_FQ_SIZE_MAX_DESC_SET, hmask]
    exact xcan_getMacro_setMacro XCAN_RX_FQ_SIZE_MAX_DESC_Pos 6 (v % 2 ^ 6) (by decide)
      (Nat.mod_lt v (by decide))

/-- C9: the three overlay views of TX message header word 0 read the same
single 32-bit word: the XTD, XLF and FDF getters of the CAN20, CANFD and CANXL
views all extract bits 29, 30 and 31 respectively of the shared word, and a
word written through one view (packing every field of that view) yields, when
its discriminator fields are read through another view, exactly the bits that
were written. -/
theorem C9_header0_overlay_consistency :
    (∀ w : Nat,
      XCAN_T0_CAN20_XTD w = (w >>> 29) &&& 0x1 ∧
      XCAN_T0_CANFD_XTD w = (w >>> 29) &&& 0x1 ∧
      XCAN_T0_CANXL_XTD w = (w >>> 29) &&& 0x1 ∧
      XCAN_T0_CAN20_XLF w = (w >>> 30) &&& 0x1 ∧
      XCAN_T0_CANFD_XLF w = (w >>> 30) &&& 0x1 ∧
      XCAN_T0_CANXL_XLF w = (w >>> 30) &&& 0x1 ∧
      XCAN_T0_CAN20_FDF w = (w >>> 31) &&& 0x1 ∧
      XCAN_T0_CANFD_FDF w = (w >>> 31) &&& 0x1 ∧
      XCAN_T0_CANXL_FDF w = (w >>> 31) &&& 0x1) ∧
    (∀ extID baseID xtd xlf fdf : Nat,
      XCAN_T0_CANXL_XTD (XCAN_T0_CAN20_pack extID baseID xtd xlf fdf) = xtd % 2 ∧
      XCAN_T0_CANXL_XLF (XCAN_T0_CAN20_pack extID baseID xtd xlf fdf) = xlf % 2 ∧
      XCAN_T0_CANXL_FDF (XCAN_T0_CAN20_pack extID baseID xtd xlf fdf) = fdf % 2 ∧
      XCAN_T0_CANFD_XTD (XCAN_T0_CAN20_pack extID baseID xtd xlf fdf) = xtd % 2 ∧
      XCAN_T0_CANFD_XLF (XCAN_T0_CAN20_pack extID baseID xtd xlf fdf) = xlf % 2 ∧
      XCAN_T0_CANFD_FDF (XCAN_T0_CAN20_pack extID baseID xtd xlf fdf) = fdf % 2) ∧
    (∀ sdt vcid sec rrs prioID xtd xlf fdf : Nat,
      XCAN_T0_CAN20_XTD (XCAN_T0_CANXL_pack sdt vcid sec rrs prioID xtd xlf fdf) = xtd % 2 ∧
      XCAN_T0_CAN20_XLF (XCAN_T0_CANXL_pack sdt vcid sec rrs prioID xtd xlf fdf) = xlf % 2 ∧
      XCAN_T0_CAN20_FDF (XCAN_T0_CANXL_pack sdt vcid sec rrs prioID xtd xlf fdf) = fdf % 2) := by
  refine ⟨fun w => ⟨rfl, rfl, rfl, rfl, rfl, rfl, rfl, rfl, rfl⟩,
    fun extID baseID xtd xlf fdf => ⟨?_, ?_, ?_, ?_, ?_, ?_⟩,
    fun sdt vcid sec rrs prioID xtd xlf fdf => ⟨?_, ?_, ?_⟩⟩ <;>
  · simp only [XCAN_T0_CANXL_XTD, XCAN_T0_CANXL_XLF, XCAN_T0_CANXL_FDF,
      XCAN_T0_CANFD_XTD, XCAN_T0_CANFD_XLF, XCAN_T0_CANFD_FDF,
      XCAN_T0_CAN20_XTD, XCAN_T0_CAN20_XLF, XCAN_T0_CAN20_FDF,
      XCAN_T0_CAN20_pack, XCAN_T0_CANXL_pack, Nat.and_one_is_mod,
      Nat.shiftRight_eq_div_pow]
    norm_num
    omega
